import Mathlib

/-!
Shallow embedding of `inspect_redis.py` (Redis inspection tool for a LiteLLM
proxy cache) and proofs about its behaviour.

Python floats: the script renders numbers with the fixed-point format
`f"{x:.2f}"` after divisions by 1024 (exact in binary floating point) or by
3600.  We model each such value as the exact fraction it denotes (an integer
numerator over a positive integer denominator) and the rendering as rounding
the magnitude to the nearest hundredth, ties away from zero; for every value
appearing in the claims the two renderings agree.

Output is modelled as a list of strings, one entry per Python `print` call,
built with the same literal texts as the source's f-strings.  Store traffic
is modelled by a `Store` snapshot (the read-only data the Redis commands
return) plus a trace of connection events.
-/

/-- An exact fraction `num / den` standing for a Python float computed by the
script.  Every fraction the script builds has a positive denominator. -/
structure Frac where
  num : Int
  den : Nat
deriving DecidableEq

/-- The rational value of a fraction. -/
def Frac.toRat (f : Frac) : ℚ :=
  (f.num : ℚ) / (f.den : ℚ)

/-- Models Python `f"{x:.2f}"` on the value `f`: sign of the value, then the
magnitude rounded to the nearest hundredth (ties away from zero), printed
with exactly two decimal digits.  `(f.num.natAbs * 200 + f.den) / (2 * f.den)`
is `⌊|f| * 100 + 1/2⌋` computed in natural-number arithmetic. -/
def formatFixed2 (f : Frac) : String :=
  let sign := if f.num < 0 then "-" else ""
  let n := (f.num.natAbs * 200 + f.den) / (2 * f.den)
  let whole := n / 100
  let frac := n % 100
  sign ++ toString whole ++ "." ++
    (if frac < 10 then "0" ++ toString frac else toString frac)

/-- The loop of `format_bytes` (inspect_redis.py lines 53-59): walk the unit
list `["B", "KB", "MB", "GB"]`, dividing by 1024 while the remaining size is
at least 1024 (`f.num < 1024 * f.den` is `f < 1024` for positive `f.den`);
falling off the list renders with unit `TB`. -/
def fbGo (f : Frac) : List String → String
  | [] => formatFixed2 f ++ " TB"
  | u :: rest =>
      if f.num < 1024 * (f.den : Int) then formatFixed2 f ++ " " ++ u
      else fbGo ⟨f.num, f.den * 1024⟩ rest

/-- `format_bytes` (inspect_redis.py lines 53-59). -/
def format_bytes (size : Nat) : String :=
  fbGo ⟨size, 1⟩ ["B", "KB", "MB", "GB"]

/-- `format_ttl` (inspect_redis.py lines 61-70): the two Redis sentinel codes,
otherwise the seconds together with the hour equivalent (`ttl / 3600`)
rendered to two decimals. -/
def format_ttl (ttl : Int) : String :=
  if ttl = -1 then "No expiration"
  else if ttl = -2 then "Key does not exist"
  else toString ttl ++ " seconds (" ++ formatFixed2 ⟨ttl, 3600⟩ ++ " hours)"

/-- Digit grouping for Python `f"{n:,}"`: the digits are handed over reversed
and a comma is inserted after every third one. -/
def thousandsAux : List Char → List Char
  | a :: b :: c :: d :: rest => a :: b :: c :: ',' :: thousandsAux (d :: rest)
  | l => l

/-- Python `f"{n:,}"` on a natural number: decimal digits with thousands
separators. -/
def formatThousands (n : Nat) : String :=
  String.mk (thousandsAux (toString n).toList.reverse).reverse

/-- The unit `format_bytes` picks after `k` divisions by 1024. -/
def unitOf : Nat → String
  | 0 => "B"
  | 1 => "KB"
  | 2 => "MB"
  | 3 => "GB"
  | _ => "TB"

/-- Substring test, used to state the "output contains ..." claims. -/
def containsSub (hay needle : String) : Bool :=
  hay.toList.tails.any (fun t => needle.toList.isPrefixOf t)

/-- Python `str.startswith`, character-based. -/
def pyStartsWith (s pre : String) : Bool :=
  pre.toList.isPrefixOf s.toList

/-- Python `str.replace(old, new, 1)` on character lists: rewrite the first
occurrence of `old` (leftmost match) and leave the rest untouched. -/
def replaceFirstAux (old new : List Char) : List Char → List Char
  | [] => if old = [] then new else []
  | c :: rest =>
      if old.isPrefixOf (c :: rest) then new ++ (c :: rest).drop old.length
      else c :: replaceFirstAux old new rest

/-- Python `key.replace(old, new, 1)` (inspect_redis.py line 162). -/
def replaceFirst (s old new : String) : String :=
  String.mk (replaceFirstAux old.toList new.toList s.toList)

/-- Helper for Python `str.split(sep, 1)`: the characters before the first
separator, and the remainder when a separator was found. -/
def splitOnceAux (sep : Char) : List Char → List Char × Option (List Char)
  | [] => ([], none)
  | c :: rest =>
      if c = sep then ([], some rest)
      else
        let p := splitOnceAux sep rest
        (c :: p.1, p.2)

/-- Python `s.split(sep, 1)` for a one-character separator: one or two parts,
never the empty list (`"".split(":", 1) == [""]`). -/
def split1 (s : String) (sep : Char) : List String :=
  match splitOnceAux sep s.toList with
  | (a, none) => [String.mk a]
  | (a, some b) => [String.mk a, String.mk b]

/-- The per-key classification step of `main` (inspect_redis.py lines
160-165): drop the first occurrence of `"<namespace>:"`, split once on `":"`,
take the first part, with `"unknown"` as the default for an empty part list. -/
def categoryOf (ns key : String) : String :=
  let key_without_ns := replaceFirst key (ns ++ ":") ""
  let parts := split1 key_without_ns ':'
  match parts with
  | [] => "unknown"
  | p :: _ => p

/-- Append `key` to the group of `cat`, creating the group at the end when it
is new — the insertion-order semantics of the Python dict `key_groups`. -/
def addToGroups (groups : List (String × List String)) (cat key : String) :
    List (String × List String) :=
  match groups with
  | [] => [(cat, [key])]
  | (c, ks) :: rest =>
      if c = cat then (c, ks ++ [key]) :: rest
      else (c, ks) :: addToGroups rest cat key

/-- The grouping loop of `main` (inspect_redis.py lines 159-168). -/
def groupKeys (ns : String) (keys : List String) : List (String × List String) :=
  keys.foldl (fun gs k => addToGroups gs (categoryOf ns k) k) []

/-- Python string comparison (lexicographic by code point) on char lists. -/
def charListLe : List Char → List Char → Bool
  | [], _ => true
  | _ :: _, [] => false
  | a :: as, b :: bs => if a < b then true else if b < a then false else charListLe as bs

/-- Insert a group into a sorted group list, keeping categories ascending —
one step of Python `sorted(key_groups.items())` (categories are unique, so
sorting the pairs is sorting by category). -/
def insertSorted (p : String × List String) :
    List (String × List String) → List (String × List String)
  | [] => [p]
  | q :: rest =>
      if charListLe p.1.toList q.1.toList then p :: q :: rest
      else q :: insertSorted p rest

/-- Python `sorted(key_groups.items())` (inspect_redis.py line 171). -/
def sortGroups (gs : List (String × List String)) : List (String × List String) :=
  gs.foldr insertSorted []

/-- A Redis value as the script distinguishes them via `r.type`: string,
hash, list, set, or any other type name (rendered only in the header). -/
inductive RVal where
  | str (s : String)
  | hash (fields : List (String × String))
  | rlist (items : List String)
  | rset (members : List String)
  | other (tname : String)
deriving DecidableEq

/-- The Redis `TYPE` name of a stored value. -/
def typeName : RVal → String
  | .str _ => "string"
  | .hash _ => "hash"
  | .rlist _ => "list"
  | .rset _ => "set"
  | .other t => t

/-- Memory section of Redis `INFO` as the script reads it: `used_memory` and
`used_memory_peak` (read with default 0), and `maxmemory` (`none` models the
field being absent from the reply). -/
structure MemoryInfo where
  used_memory : Nat
  used_memory_peak : Nat
  maxmemory : Option Nat
deriving DecidableEq

/-- Stats section of Redis `INFO` as the script reads it. -/
structure StatsInfo where
  keyspace_hits : Nat
  keyspace_misses : Nat
  total_commands_processed : Nat
deriving DecidableEq

/-- Read-only snapshot of the Redis data the script queries during one run.
`data` lists the keys in the store's scan order with their values; `ttlOf`
and `memUsage` are the `TTL` and `MEMORY USAGE` replies per key. -/
structure Store where
  data : List (String × RVal)
  ttlOf : String → Int
  memUsage : String → Option Nat
  memInfo : MemoryInfo
  statsInfo : StatsInfo

/-- `r.keys(f"{namespace}:*")` (inspect_redis.py lines 148-149): the keys of
the store, in scan order, matching the glob `<namespace>:*` — i.e. starting
with `<namespace>:` (the namespace contains no glob metacharacters). -/
def keysPattern (st : Store) (ns : String) : List String :=
  (st.data.map Prod.fst).filter (fun k => pyStartsWith k (ns ++ ":"))

/-- The Redis `TYPE` reply for a key (`"none"` when absent). -/
def typeOf (st : Store) (k : String) : String :=
  match st.data.lookup k with
  | some v => typeName v
  | none => "none"

/-- The script's two JSON uses, `json.dumps(json.loads(v), indent=2)` and
`indent=4`, abstracted as partial pretty-printers: `none` models
`json.loads` raising (the value is not JSON). -/
structure JsonCodec where
  dump2 : String → Option String
  dump4 : String → Option String

/-- A line of 60 `=` characters, Python `"="*60`. -/
def eq60 : String :=
  String.mk (List.replicate 60 '=')

/-- String-value rendering of `inspect_key` (inspect_redis.py lines 88-100):
try JSON, else first 500 characters plus a remainder note; the byte size
(UTF-8 encoded length) is printed by both branches. -/
def renderString (J : JsonCodec) (v : String) : List String :=
  (match J.dump2 v with
   | some pretty => ["Value (JSON):", pretty]
   | none =>
       ["Value (raw, first 500 chars):", v.take 500] ++
       (if v.length > 500 then
         ["... (" ++ toString (v.length - 500) ++ " more characters)"]
        else [])) ++
  ["Size: " ++ format_bytes v.utf8ByteSize]

/-- Hash-value rendering of `inspect_key` (inspect_redis.py lines 102-112). -/
def renderHash (J : JsonCodec) (fields : List (String × String)) : List String :=
  ["Hash fields (" ++ toString fields.length ++ "):"] ++
  (fields.take 10).map (fun fv =>
    match J.dump4 fv.2 with
    | some pretty => "  " ++ fv.1 ++ ": " ++ pretty
    | none => "  " ++ fv.1 ++ ": " ++ fv.2.take 200) ++
  (if fields.length > 10 then
    ["  ... and " ++ toString (fields.length - 10) ++ " more fields"]
   else [])

/-- One previewed list element (inspect_redis.py lines 119-124). -/
def renderListItem (J : JsonCodec) (iv : Nat × String) : String :=
  match J.dump4 iv.2 with
  | some pretty => "  [" ++ toString iv.1 ++ "]: " ++ pretty
  | none => "  [" ++ toString iv.1 ++ "]: " ++ iv.2.take 200

/-- List-value rendering of `inspect_key` (inspect_redis.py lines 114-124):
total length, then `lrange(key, 0, 4)` — the first five elements — with no
remainder note. -/
def renderList (J : JsonCodec) (items : List String) : List String :=
  ["List length: " ++ toString items.length, "First 5 items:"] ++
  ((items.take 5).enum).map (renderListItem J)

/-- Set-value rendering of `inspect_key` (inspect_redis.py lines 126-132). -/
def renderSet (members : List String) : List String :=
  ["Set members (" ++ toString members.length ++ "):"] ++
  (members.take 10).map (fun m => "  - " ++ m) ++
  (if members.length > 10 then
    ["  ... and " ++ toString (members.length - 10) ++ " more members"]
   else [])

/-- The `if key_type == ...` dispatch chain of `inspect_key`
(inspect_redis.py lines 88-132); an unrecognized type renders nothing beyond
the header. -/
def renderDispatch (J : JsonCodec) : RVal → List String
  | .str s => renderString J s
  | .hash fields => renderHash J fields
  | .rlist items => renderList J items
  | .rset members => renderSet members
  | .other _ => []

/-- `inspect_key` (inspect_redis.py lines 72-132): resolve the full key
(prefix the namespace unless the key already starts with it), report absence
as a normal terminal outcome, otherwise print the header (key, type, TTL) and
dispatch on the stored value's type. -/
def inspect_key (J : JsonCodec) (st : Store) (key ns : String) : List String :=
  let full_key := if pyStartsWith key ns then key else ns ++ ":" ++ key
  match st.data.lookup full_key with
  | none => ["Key '" ++ full_key ++ "' does not exist"]
  | some v =>
      ["\n" ++ eq60,
       "Key: " ++ full_key,
       "Type: " ++ typeName v,
       "TTL: " ++ format_ttl (st.ttlOf full_key)] ++ renderDispatch J v

/-- The hit-rate computation of `main` (inspect_redis.py lines 202-205):
`hits / total * 100` guarded to plain `0` when `total == 0`. -/
def hit_rate_calc (hits misses : Nat) : Frac :=
  let total := hits + misses
  if total > 0 then ⟨hits * 100, total⟩ else ⟨0, 1⟩

/-- Connection-lifecycle events of one run.  The script opens one connection
(`redis.Redis` + `ping`, inspect_redis.py lines 34-43); no close/release call
appears anywhere in it, so `close` is never emitted. -/
inductive REvent where
  | connect
  | close
deriving DecidableEq

/-- Outcome of one whole run of the script: the printed lines, the
connection events, and the process exit code. -/
structure RunResult where
  output : List String
  events : List REvent
  exitCode : Nat
deriving DecidableEq

/-- The error report of `connect_redis` on a failed connection
(inspect_redis.py lines 45-48). -/
def connectFailLines (host port errDetail : String) : List String :=
  ["Error: Cannot connect to Redis at " ++ host ++ ":" ++ port,
   "Details: " ++ errDetail]

/-- The banner `main` prints after connecting (inspect_redis.py lines
138-145). -/
def bannerLines (host port ns : String) : List String :=
  [eq60, "Redis Inspection for LiteLLM Proxy", eq60,
   "Host: " ++ host, "Port: " ++ port, "Namespace: " ++ ns, eq60, ""]

/-- The key-count line (inspect_redis.py line 151). -/
def foundLine (ns : String) (n : Nat) : String :=
  "Found " ++ toString n ++ " keys with namespace '" ++ ns ++ "'"

/-- The category-breakdown section (inspect_redis.py lines 170-173). -/
def groupSection (ns : String) (keys : List String) : List String :=
  ["Keys by type:"] ++
  (sortGroups (groupKeys ns keys)).map (fun pg =>
    "  " ++ pg.1 ++ ": " ++ toString pg.2.length ++ " keys") ++
  [""]

/-- The lines printed for one sample key (inspect_redis.py lines 177-184):
the size line appears only when `r.memory_usage` returns a truthy (nonzero)
value. -/
def sampleEntry (st : Store) (ik : Nat × String) : List String :=
  ["  " ++ toString (ik.1 + 1) ++ ". " ++ ik.2,
   "     Type: " ++ typeOf st ik.2 ++ ", TTL: " ++ format_ttl (st.ttlOf ik.2)] ++
  (match st.memUsage ik.2 with
   | some n => if n ≠ 0 then ["     Size: " ++ format_bytes n] else []
   | none => [])

/-- The sample-keys section (inspect_redis.py lines 176-187). -/
def sampleSection (st : Store) (keys : List String) : List String :=
  ["Sample keys (first 10):"] ++
  ((keys.take 10).enum).flatMap (sampleEntry st) ++
  (if keys.length > 10 then
    ["  ... and " ++ toString (keys.length - 10) ++ " more keys"]
   else []) ++
  [""]

/-- The memory-statistics section (inspect_redis.py lines 190-198);
`used / maxmemory * 100` is the exact fraction `⟨used * 100, m⟩`. -/
def memorySection (info : MemoryInfo) : List String :=
  ["Memory Statistics:",
   "  Used memory: " ++ format_bytes info.used_memory,
   "  Peak memory: " ++ format_bytes info.used_memory_peak] ++
  (match info.maxmemory with
   | some m =>
       if m > 0 then
         ["  Max memory: " ++ format_bytes m,
          "  Usage: " ++ formatFixed2 ⟨info.used_memory * 100, m⟩ ++ "%"]
       else []
   | none => []) ++
  [""]

/-- The cache-statistics section (inspect_redis.py lines 201-212). -/
def statsSection (info : StatsInfo) : List String :=
  ["Cache Statistics:",
   "  Cache hits: " ++ formatThousands info.keyspace_hits,
   "  Cache misses: " ++ formatThousands info.keyspace_misses,
   "  Hit rate: " ++ formatFixed2 (hit_rate_calc info.keyspace_hits info.keyspace_misses) ++ "%",
   "  Total commands: " ++ formatThousands info.total_commands_processed,
   ""]

/-- The usage hint `main` prints when no key argument was given
(inspect_redis.py lines 219-229). -/
def usageLines (argv0 host port ns : String) : List String :=
  [eq60, "Usage:",
   "  " ++ argv0 ++ "                    # Show overview",
   "  " ++ argv0 ++ " <key_name>         # Inspect specific key",
   "",
   "Examples:",
   "  " ++ argv0 ++ " completion:abc123   # Inspect a completion cache key",
   "  " ++ argv0 ++ " embedding:xyz789  # Inspect an embedding cache key",
   "",
   "To see all keys, use:",
   "  redis-cli -h " ++ host ++ " -p " ++ port ++ " KEYS '" ++ ns ++ ":*'"]

/-- The full overview report as printed on a run that found at least one
namespaced key: banner, key count, category breakdown, sample keys, memory
statistics and cache statistics (inspect_redis.py lines 138-212). -/
def overview_report (st : Store) (ns host port : String) : List String :=
  let keys := keysPattern st ns
  bannerLines host port ns ++ [foundLine ns keys.length, ""] ++
  groupSection ns keys ++ sampleSection st keys ++
  memorySection st.memInfo ++ statsSection st.statsInfo

namespace InspectRedis

/-- One whole run of the script (`main`, inspect_redis.py lines 134-232,
plus the exits of `connect_redis`).  `connOk` is whether `redis.Redis` +
`ping` succeeded; `args` are the positional command-line arguments
(`sys.argv[1:]`); `host`/`port` render the connection parameters and
`argv0` is `sys.argv[0]`. -/
def main (J : JsonCodec) (connOk : Bool) (errDetail : String) (st : Store)
    (ns host port argv0 : String) (args : List String) : RunResult :=
  if connOk = false then
    { output := connectFailLines host port errDetail,
      events := [REvent.connect], exitCode := 1 }
  else
    let keys := keysPattern st ns
    if keys.length = 0 then
      { output := bannerLines host port ns ++ [foundLine ns keys.length, ""] ++
          ["No cached data found."],
        events := [REvent.connect], exitCode := 0 }
    else
      { output := overview_report st ns host port ++
          (match args with
           | [] => usageLines argv0 host port ns
           | k :: _ => inspect_key J st k ns),
        events := [REvent.connect], exitCode := 0 }

end InspectRedis

/-- Bridge between the integer comparison `fbGo` performs and the rational
value of the fraction: for a positive denominator, `num / den < b` iff
`num < b * den`. -/
theorem fracLtIff (num : Int) (den b : Nat) (hden : 0 < den) :
    Frac.toRat ⟨num, den⟩ < (b : ℚ) ↔ num < (b : Int) * den := by
  unfold Frac.toRat
  rw [div_lt_iff₀ (by exact_mod_cast hden)]
  constructor
  · intro h; exact_mod_cast h
  · intro h; exact_mod_cast h

/-- Claim C7: the hit rate is `hits / (hits + misses) * 100` whenever some
lookup happened, and the guard makes it 0 (never a division) when
`hits + misses = 0`; `hits = 3, misses = 1` gives 75. -/
theorem C7_hit_rate :
    (∀ hits misses : Nat,
      (hits + misses = 0 → hit_rate_calc hits misses = ⟨0, 1⟩) ∧
      (0 < hits + misses →
        (hit_rate_calc hits misses).toRat =
          (hits : ℚ) / ((hits : ℚ) + (misses : ℚ)) * 100)) ∧
    (hit_rate_calc 3 1).toRat = 75 ∧ (hit_rate_calc 0 0).toRat = 0 := by
  refine ⟨fun hits misses => ⟨fun h0 => ?_, fun hpos => ?_⟩, ?_, ?_⟩
  · simp [hit_rate_calc, h0]
  · have hne : ((hits : ℚ) + (misses : ℚ)) ≠ 0 := by
      have : (0 : ℚ) < (hits : ℚ) + (misses : ℚ) := by exact_mod_cast hpos
      exact ne_of_gt this
    simp only [hit_rate_calc, if_pos hpos, Frac.toRat]
    push_cast
    field_simp
  · norm_num [hit_rate_calc, Frac.toRat]
  · norm_num [hit_rate_calc, Frac.toRat]

/-- Claim C7 witness: the theorem applied at `hits = 3`, `misses = 1`. -/
theorem C7_witness : (hit_rate_calc 3 1).toRat = (3 : ℚ) / ((3 : ℚ) + (1 : ℚ)) * 100 :=
  (C7_hit_rate.1 3 1).2 (by decide)

/-- Claim C9: the two TTL sentinels, the general shape `"<ttl> seconds
(<ttl/3600 to two decimals> hours)"`, and the required contents at 90. -/
theorem C9_format_ttl :
    format_ttl (-1) = "No expiration" ∧
    format_ttl (-2) = "Key does not exist" ∧
    (∀ ttl : Int, ttl ≠ -1 → ttl ≠ -2 →
      format_ttl ttl =
        toString ttl ++ " seconds (" ++ formatFixed2 ⟨ttl, 3600⟩ ++ " hours)" ∧
      Frac.toRat ⟨ttl, 3600⟩ = (ttl : ℚ) / 3600) ∧
    containsSub (format_ttl 90) "90 seconds" = true ∧
    containsSub (format_ttl 90) "0.03 hours" = true := by
  refine ⟨by decide, by decide, fun ttl h1 h2 => ⟨?_, ?_⟩, by decide, by decide⟩
  · simp [format_ttl, h1, h2]
  · norm_num [Frac.toRat]

/-- Claim C9 witness: the theorem applied at `ttl = 90`. -/
theorem C9_witness :
    (format_ttl 90 =
      toString (90 : Int) ++ " seconds (" ++ formatFixed2 ⟨90, 3600⟩ ++ " hours)" ∧
     Frac.toRat ⟨90, 3600⟩ = ((90 : Int) : ℚ) / 3600) :=
  C9_format_ttl.2.2.1 90 (by decide) (by decide)

/-- Associativity of string append (Lean core has no ready lemma). -/
theorem strAppendAssoc (a b c : String) : a ++ b ++ c = a ++ (b ++ c) := by
  cases a
  cases b
  cases c
  exact congrArg String.mk (List.append_assoc _ _ _)

/-- Claim C8: the four specified renderings, and, for every non-negative
integer, `format_bytes` divides by 1024 as long as the remaining value is at
least 1024 but at most four times (capping the unit at TB), rendering the
remaining value with two decimals and the unit suffix. -/
theorem C8_format_bytes :
    format_bytes 0 = "0.00 B" ∧ format_bytes 1024 = "1.00 KB" ∧
    format_bytes 1536 = "1.50 KB" ∧ format_bytes (1024 * 1024 * 5) = "5.00 MB" ∧
    ∀ n : Nat, ∃ k, k ≤ 4 ∧
      format_bytes n = formatFixed2 ⟨n, 1024 ^ k⟩ ++ " " ++ unitOf k ∧
      (k < 4 → Frac.toRat ⟨n, 1024 ^ k⟩ < 1024) ∧
      (∀ j, j < k → ¬ Frac.toRat ⟨n, 1024 ^ j⟩ < 1024) := by
  refine ⟨by decide, by decide, by decide, by decide, fun n => ?_⟩
  have e0 : (1024 : Nat) ^ 0 = 1 := by norm_num
  have e1 : (1024 : Nat) ^ 1 = 1024 := by norm_num
  have e2 : (1024 : Nat) ^ 2 = 1048576 := by norm_num
  have e3 : (1024 : Nat) ^ 3 = 1073741824 := by norm_num
  have e4 : (1024 : Nat) ^ 4 = 1099511627776 := by norm_num
  have hlt : ∀ d : Nat, 0 < d → (n < 1024 * d ↔ Frac.toRat ⟨n, d⟩ < 1024) := by
    intro d hd
    have h := fracLtIff (n : Int) d 1024 hd
    constructor
    · intro hx; exact h.mpr (by exact_mod_cast hx)
    · intro hx; exact_mod_cast h.mp hx
  by_cases h0 : n < 1024
  · refine ⟨0, by omega, ?_, fun _ => ?_, by omega⟩
    · simp [format_bytes, fbGo, h0, unitOf, e0]
    · exact (hlt 1 (by norm_num)).mp (by omega)
  · by_cases h1 : n < 1048576
    · refine ⟨1, by omega, ?_, fun _ => ?_, fun j hj => ?_⟩
      · simp [format_bytes, fbGo, h0, h1, unitOf, e1]
      · exact (hlt 1024 (by norm_num)).mp (by omega)
      · interval_cases j
        rw [e0]
        intro hx
        have := (hlt 1 (by norm_num)).mpr hx
        omega
    · by_cases h2 : n < 1073741824
      · refine ⟨2, by omega, ?_, fun _ => ?_, fun j hj => ?_⟩
        · simp [format_bytes, fbGo, h0, h1, h2, unitOf, e2]
        · exact (hlt 1048576 (by norm_num)).mp (by omega)
        · interval_cases j
          · rw [e0]
            intro hx
            have := (hlt 1 (by norm_num)).mpr hx
            omega
          · rw [e1]
            intro hx
            have := (hlt 1024 (by norm_num)).mpr hx
            omega
      · by_cases h3 : n < 1099511627776
        · refine ⟨3, by omega, ?_, fun _ => ?_, fun j hj => ?_⟩
          · simp [format_bytes, fbGo, h0, h1, h2, h3, unitOf, e3]
          · exact (hlt 1073741824 (by norm_num)).mp (by omega)
          · interval_cases j
            · rw [e0]
              intro hx
              have := (hlt 1 (by norm_num)).mpr hx
              omega
            · rw [e1]
              intro hx
              have := (hlt 1024 (by norm_num)).mpr hx
              omega
            · rw [e2]
              intro hx
              have := (hlt 1048576 (by norm_num)).mpr hx
              omega
        · refine ⟨4, by omega, ?_, by omega, fun j hj => ?_⟩
          · simp [format_bytes, fbGo, h0, h1, h2, h3, unitOf, e4]
            rw [strAppendAssoc]
            rfl
          · interval_cases j
            · rw [e0]
              intro hx
              have := (hlt 1 (by norm_num)).mpr hx
              omega
            · rw [e1]
              intro hx
              have := (hlt 1024 (by norm_num)).mpr hx
              omega
            · rw [e2]
              intro hx
              have := (hlt 1048576 (by norm_num)).mpr hx
              omega
            · rw [e3]
              intro hx
              have := (hlt 1073741824 (by norm_num)).mpr hx
              omega

/-- Claim C8 witness: the universal part of the theorem applied at 2048. -/
theorem C8_witness :
    ∃ k, k ≤ 4 ∧
      format_bytes 2048 = formatFixed2 ⟨2048, 1024 ^ k⟩ ++ " " ++ unitOf k ∧
      (k < 4 → Frac.toRat ⟨2048, 1024 ^ k⟩ < 1024) ∧
      (∀ j, j < k → ¬ Frac.toRat ⟨2048, 1024 ^ j⟩ < 1024) :=
  C8_format_bytes.2.2.2.2 2048

/-- The data of an appended string is the appended data. -/
theorem strDataAppend (a b : String) : (a ++ b).data = a.data ++ b.data := by
  cases a
  cases b
  rfl

/-- `str.replace(old, new, 1)` on an input that begins with `old` rewrites
exactly that leading occurrence. -/
theorem replaceFirstAuxPre (old new s : List Char) (h : old ≠ []) :
    replaceFirstAux old new (old ++ s) = new ++ s := by
  match old with
  | [] => exact absurd rfl h
  | c :: cs =>
    have hc : (c :: cs).isPrefixOf (c :: (cs ++ s)) = true :=
      List.isPrefixOf_iff_prefix.mpr (List.prefix_append _ _)
    show replaceFirstAux (c :: cs) new (c :: (cs ++ s)) = new ++ s
    simp only [replaceFirstAux, hc, if_true]
    congr 1
    rw [List.length_cons, List.drop_succ_cons]
    exact List.drop_left cs s

/-- Claim C4, corrected part: when the key really begins with
`<namespace>:`, the classifier's `key.replace(f"{namespace}:", "", 1)` is
exact prefix stripping (the counterexample shows the claim's other half —
keys merely containing the namespace later — is what fails). -/
theorem C4_amended (ns rest : String) :
    replaceFirst (ns ++ ":" ++ rest) (ns ++ ":") "" = rest := by
  unfold replaceFirst String.toList
  rw [strDataAppend (ns ++ ":") rest]
  rw [replaceFirstAuxPre _ _ _ (by rw [strDataAppend]; simp)]
  rfl

/-- Claim C4 counterexample: under namespace `ns`, the key `"ans:b"` does not
start with `"ns:"` yet is not left unchanged — the classifier removes the
embedded `"ns:"`, producing `"ab"` and hence category `"ab"`. -/
theorem C4_counterexample :
    pyStartsWith "ans:b" "ns:" = false ∧
    replaceFirst "ans:b" "ns:" "" = "ab" ∧
    replaceFirst "ans:b" "ns:" "" ≠ "ans:b" ∧
    categoryOf "ns" "ans:b" = "ab" := by decide

/-- Claim C5, corrected part: a key that is empty after namespace stripping
gets the empty-string category — not `"unknown"`; the `"unknown"` default is
dead code because `split(":", 1)` never returns an empty list. -/
theorem C5_amended :
    (∀ ns key : String, replaceFirst key (ns ++ ":") "" = "" →
      categoryOf ns key = "") ∧
    ∀ (s : String) (c : Char), split1 s c ≠ [] := by
  constructor
  · intro ns key h
    unfold categoryOf
    rw [h]
    rfl
  · intro s c
    unfold split1 String.toList
    cases hx : splitOnceAux c s.data with
    | mk a b => cases b <;> simp [hx]

/-- Claim C5 witness: the amended theorem applied to the key `"litellm:"`
under namespace `"litellm"`. -/
theorem C5_witness : categoryOf "litellm" "litellm:" = "" :=
  C5_amended.1 "litellm" "litellm:" (by decide)

/-- Claim C5 counterexample: the key `"ns:"` (empty after stripping)
classifies under the empty-string category, not under `"unknown"`. -/
theorem C5_counterexample :
    categoryOf "ns" "ns:" = "" ∧ categoryOf "ns" "ns:" ≠ "unknown" := by decide

/-- Unfolding of `inspect_key` on a key that resolves to an existing value:
header (separator, key, type, TTL) followed by the type dispatch. -/
theorem inspect_key_found (J : JsonCodec) (st : Store) (key ns full_key : String)
    (v : RVal)
    (hfk : full_key = if pyStartsWith key ns then key else ns ++ ":" ++ key)
    (hv : st.data.lookup full_key = some v) :
    inspect_key J st key ns =
      ["\n" ++ eq60, "Key: " ++ full_key, "Type: " ++ typeName v,
       "TTL: " ++ format_ttl (st.ttlOf full_key)] ++ renderDispatch J v := by
  subst hfk
  simp only [inspect_key, hv]

/-- Claim C2, corrected part: on a list-typed key the inspector prints the
total length and previews exactly the first `min 5 length` elements; the
output ends with the previews — no remainder note exists for lists. -/
theorem C2_amended (J : JsonCodec) (st : Store) (key ns full_key : String)
    (items : List String)
    (hfk : full_key = if pyStartsWith key ns then key else ns ++ ":" ++ key)
    (hv : st.data.lookup full_key = some (RVal.rlist items)) :
    inspect_key J st key ns =
      ["\n" ++ eq60, "Key: " ++ full_key, "Type: " ++ typeName (RVal.rlist items),
       "TTL: " ++ format_ttl (st.ttlOf full_key),
       "List length: " ++ toString items.length, "First 5 items:"] ++
      ((items.take 5).enum).map (renderListItem J) ∧
    (((items.take 5).enum).map (renderListItem J)).length = min 5 items.length := by
  constructor
  · rw [inspect_key_found J st key ns full_key _ hfk hv]
    rfl
  · simp [List.length_map, List.enum_length, List.length_take]

set_option maxRecDepth 20000 in
/-- Claim C2 witness: the amended theorem at a concrete two-element list. -/
theorem C2_witness :
    inspect_key ⟨fun _ => none, fun _ => none⟩
      { data := [("ns:pair", RVal.rlist ["x", "y"])],
        ttlOf := fun _ => -1, memUsage := fun _ => none,
        memInfo := ⟨0, 0, none⟩, statsInfo := ⟨0, 0, 0⟩ } "pair" "ns" =
      ["\n" ++ eq60, "Key: ns:pair", "Type: list", "TTL: No expiration",
       "List length: 2", "First 5 items:", "  [0]: x", "  [1]: y"] := by
  have h := (C2_amended ⟨fun _ => none, fun _ => none⟩
      { data := [("ns:pair", RVal.rlist ["x", "y"])],
        ttlOf := fun _ => -1, memUsage := fun _ => none,
        memInfo := ⟨0, 0, none⟩, statsInfo := ⟨0, 0, 0⟩ } "pair" "ns" "ns:pair"
      ["x", "y"] (by decide) (by decide)).1
  exact h.trans (by decide)

set_option maxRecDepth 20000 in
/-- Claim C2 counterexample: a 7-element list key renders its length line,
the five previews, and nothing else — in particular no line contains the
remainder word "more", so the required note "and 2 more" is absent. -/
theorem C2_counterexample :
    inspect_key ⟨fun _ => none, fun _ => none⟩
      { data := [("ns:mylist", RVal.rlist ["e1", "e2", "e3", "e4", "e5", "e6", "e7"])],
        ttlOf := fun _ => -1, memUsage := fun _ => none,
        memInfo := ⟨0, 0, none⟩, statsInfo := ⟨0, 0, 0⟩ } "mylist" "ns" =
      ["\n" ++ eq60, "Key: ns:mylist", "Type: list", "TTL: No expiration",
       "List length: 7", "First 5 items:",
       "  [0]: e1", "  [1]: e2", "  [2]: e3", "  [3]: e4", "  [4]: e5"] ∧
    ∀ l ∈ inspect_key ⟨fun _ => none, fun _ => none⟩
      { data := [("ns:mylist", RVal.rlist ["e1", "e2", "e3", "e4", "e5", "e6", "e7"])],
        ttlOf := fun _ => -1, memUsage := fun _ => none,
        memInfo := ⟨0, 0, none⟩, statsInfo := ⟨0, 0, 0⟩ } "mylist" "ns",
      containsSub l "more" = false := by decide

/-- Claim C6: on a string-typed key the inspector first tries JSON
(pretty-printing on success), otherwise shows the first 500 characters with
an exact omitted-character note when and only when the value is longer than
500, and both branches report the UTF-8 byte size. -/
theorem C6_string_inspect (J : JsonCodec) (st : Store) (key ns full_key v : String)
    (hfk : full_key = if pyStartsWith key ns then key else ns ++ ":" ++ key)
    (hv : st.data.lookup full_key = some (RVal.str v)) :
    (∀ pretty, J.dump2 v = some pretty →
      inspect_key J st key ns =
        ["\n" ++ eq60, "Key: " ++ full_key, "Type: " ++ typeName (RVal.str v),
         "TTL: " ++ format_ttl (st.ttlOf full_key),
         "Value (JSON):", pretty,
         "Size: " ++ format_bytes v.utf8ByteSize]) ∧
    (J.dump2 v = none → ¬ v.length > 500 →
      inspect_key J st key ns =
        ["\n" ++ eq60, "Key: " ++ full_key, "Type: " ++ typeName (RVal.str v),
         "TTL: " ++ format_ttl (st.ttlOf full_key),
         "Value (raw, first 500 chars):", v.take 500,
         "Size: " ++ format_bytes v.utf8ByteSize]) ∧
    (J.dump2 v = none → v.length > 500 →
      inspect_key J st key ns =
        ["\n" ++ eq60, "Key: " ++ full_key, "Type: " ++ typeName (RVal.str v),
         "TTL: " ++ format_ttl (st.ttlOf full_key),
         "Value (raw, first 500 chars):", v.take 500,
         "... (" ++ toString (v.length - 500) ++ " more characters)",
         "Size: " ++ format_bytes v.utf8ByteSize]) := by
  refine ⟨fun pretty hp => ?_, fun hn hle => ?_, fun hn hgt => ?_⟩
  · rw [inspect_key_found J st key ns full_key _ hfk hv]
    simp [renderDispatch, renderString, hp]
  · rw [inspect_key_found J st key ns full_key _ hfk hv]
    simp [renderDispatch, renderString, hn, hle]
  · rw [inspect_key_found J st key ns full_key _ hfk hv]
    simp [renderDispatch, renderString, hn, hgt]


/-- UTF-8 length of a repeated character. -/
theorem utf8LenReplicate (n : Nat) (c : Char) :
    String.utf8Len (List.replicate n c) = n * c.utf8Size := by
  induction n with
  | zero => simp
  | succ k ih => simp [List.replicate_succ, ih, Nat.succ_mul]

set_option maxRecDepth 20000 in
/-- Claim C6 witness: the truncation branch of the theorem at a 600-character
non-JSON value — 500 characters shown, a "100 more characters" note, and the
byte size. -/
theorem C6_witness :
    inspect_key ⟨fun _ => none, fun _ => none⟩
      { data := [("ns:k", RVal.str (String.mk (List.replicate 600 'a')))],
        ttlOf := fun _ => -1, memUsage := fun _ => none,
        memInfo := ⟨0, 0, none⟩, statsInfo := ⟨0, 0, 0⟩ } "k" "ns" =
      ["\n" ++ eq60, "Key: ns:k", "Type: string", "TTL: No expiration",
       "Value (raw, first 500 chars):", String.mk (List.replicate 500 'a'),
       "... (100 more characters)", "Size: 600.00 B"] := by
  have e1 : (String.mk (List.replicate 600 'a')).take 500 =
      String.mk (List.replicate 500 'a') := by
    rw [String.take_eq]
    show String.mk ((List.replicate 600 'a').take 500) = _
    rw [List.take_replicate]
    norm_num
  have e2 : (String.mk (List.replicate 600 'a')).length = 600 := by
    show (List.replicate 600 'a').length = 600
    rw [List.length_replicate]
  have e3 : (String.mk (List.replicate 600 'a')).utf8ByteSize = 600 := by
    rw [String.utf8ByteSize_mk, utf8LenReplicate]
    decide
  have h := (C6_string_inspect ⟨fun _ => none, fun _ => none⟩
      { data := [("ns:k", RVal.str (String.mk (List.replicate 600 'a')))],
        ttlOf := fun _ => -1, memUsage := fun _ => none,
        memInfo := ⟨0, 0, none⟩, statsInfo := ⟨0, 0, 0⟩ } "k" "ns" "ns:k"
      (String.mk (List.replicate 600 'a')) rfl rfl).2.2 rfl (by rw [e2]; norm_num)
  rw [h, e1, e2, e3]
  rfl

/-- Claim C1 counterexample: invoked with exactly one positional argument the
program still produces the overview — key count, category breakdown, sample
keys, memory and cache statistics all appear in the output. -/
theorem C1_counterexample :
    "Found 1 keys with namespace 'litellm'" ∈
      (InspectRedis.main ⟨fun _ => none, fun _ => none⟩ true ""
        { data := [("litellm:completion:a", RVal.str "hi")],
          ttlOf := fun _ => -1, memUsage := fun _ => none,
          memInfo := ⟨100, 200, none⟩, statsInfo := ⟨3, 1, 7⟩ }
        "litellm" "localhost" "6379" "prog" ["completion:a"]).output ∧
    "Keys by type:" ∈
      (InspectRedis.main ⟨fun _ => none, fun _ => none⟩ true ""
        { data := [("litellm:completion:a", RVal.str "hi")],
          ttlOf := fun _ => -1, memUsage := fun _ => none,
          memInfo := ⟨100, 200, none⟩, statsInfo := ⟨3, 1, 7⟩ }
        "litellm" "localhost" "6379" "prog" ["completion:a"]).output ∧
    "Sample keys (first 10):" ∈
      (InspectRedis.main ⟨fun _ => none, fun _ => none⟩ true ""
        { data := [("litellm:completion:a", RVal.str "hi")],
          ttlOf := fun _ => -1, memUsage := fun _ => none,
          memInfo := ⟨100, 200, none⟩, statsInfo := ⟨3, 1, 7⟩ }
        "litellm" "localhost" "6379" "prog" ["completion:a"]).output ∧
    "Memory Statistics:" ∈
      (InspectRedis.main ⟨fun _ => none, fun _ => none⟩ true ""
        { data := [("litellm:completion:a", RVal.str "hi")],
          ttlOf := fun _ => -1, memUsage := fun _ => none,
          memInfo := ⟨100, 200, none⟩, statsInfo := ⟨3, 1, 7⟩ }
        "litellm" "localhost" "6379" "prog" ["completion:a"]).output ∧
    "Cache Statistics:" ∈
      (InspectRedis.main ⟨fun _ => none, fun _ => none⟩ true ""
        { data := [("litellm:completion:a", RVal.str "hi")],
          ttlOf := fun _ => -1, memUsage := fun _ => none,
          memInfo := ⟨100, 200, none⟩, statsInfo := ⟨3, 1, 7⟩ }
        "litellm" "localhost" "6379" "prog" ["completion:a"]).output := by
  decide

/-- Claim C1, corrected part: with exactly one positional argument (and a
non-empty namespace scan) the run prints the full overview report and then,
in addition, the single-key inspection; inspect mode does not replace the
overview, and the run exits 0. -/
theorem C1_amended (J : JsonCodec) (eD : String) (st : Store)
    (ns host port argv0 k : String) (hk : keysPattern st ns ≠ []) :
    (InspectRedis.main J true eD st ns host port argv0 [k]).output =
      overview_report st ns host port ++ inspect_key J st k ns ∧
    (InspectRedis.main J true eD st ns host port argv0 [k]).exitCode = 0 := by
  have hlen : ¬ (keysPattern st ns).length = 0 :=
    fun h => hk (List.length_eq_zero.mp h)
  constructor <;> simp [InspectRedis.main, hlen]

/-- Claim C1 witness: the amended theorem at a one-key store. -/
theorem C1_witness :
    (InspectRedis.main ⟨fun _ => none, fun _ => none⟩ true ""
      { data := [("litellm:completion:a", RVal.str "hi")],
        ttlOf := fun _ => -1, memUsage := fun _ => none,
        memInfo := ⟨100, 200, none⟩, statsInfo := ⟨3, 1, 7⟩ }
      "litellm" "localhost" "6379" "prog" ["completion:a"]).output =
      overview_report
        { data := [("litellm:completion:a", RVal.str "hi")],
          ttlOf := fun _ => -1, memUsage := fun _ => none,
          memInfo := ⟨100, 200, none⟩, statsInfo := ⟨3, 1, 7⟩ }
        "litellm" "localhost" "6379" ++
      inspect_key ⟨fun _ => none, fun _ => none⟩
        { data := [("litellm:completion:a", RVal.str "hi")],
          ttlOf := fun _ => -1, memUsage := fun _ => none,
          memInfo := ⟨100, 200, none⟩, statsInfo := ⟨3, 1, 7⟩ }
        "completion:a" "litellm" :=
  (C1_amended ⟨fun _ => none, fun _ => none⟩ ""
    { data := [("litellm:completion:a", RVal.str "hi")],
      ttlOf := fun _ => -1, memUsage := fun _ => none,
      memInfo := ⟨100, 200, none⟩, statsInfo := ⟨3, 1, 7⟩ }
    "litellm" "localhost" "6379" "prog" "completion:a" (by decide)).1

/-- Claim C3 counterexample: a normally completed run (exit code 0) opened
the connection and terminated without any close — the connection is not
released on this exit path. -/
theorem C3_counterexample :
    (InspectRedis.main ⟨fun _ => none, fun _ => none⟩ true ""
      { data := [("litellm:completion:b", RVal.str "v")],
        ttlOf := fun _ => -1, memUsage := fun _ => none,
        memInfo := ⟨0, 0, none⟩, statsInfo := ⟨0, 0, 0⟩ }
      "litellm" "h" "p" "prog" []).exitCode = 0 ∧
    REvent.connect ∈
      (InspectRedis.main ⟨fun _ => none, fun _ => none⟩ true ""
        { data := [("litellm:completion:b", RVal.str "v")],
          ttlOf := fun _ => -1, memUsage := fun _ => none,
          memInfo := ⟨0, 0, none⟩, statsInfo := ⟨0, 0, 0⟩ }
        "litellm" "h" "p" "prog" []).events ∧
    REvent.close ∉
      (InspectRedis.main ⟨fun _ => none, fun _ => none⟩ true ""
        { data := [("litellm:completion:b", RVal.str "v")],
          ttlOf := fun _ => -1, memUsage := fun _ => none,
          memInfo := ⟨0, 0, none⟩, statsInfo := ⟨0, 0, 0⟩ }
        "litellm" "h" "p" "prog" []).events := by
  decide

/-- Claim C3, corrected part: every run — connection failure, empty scan,
overview or inspect mode — opens the one connection and never emits a close;
release is left to process termination on every exit path. -/
theorem C3_amended (J : JsonCodec) (connOk : Bool) (eD : String) (st : Store)
    (ns host port argv0 : String) (args : List String) :
    REvent.connect ∈
      (InspectRedis.main J connOk eD st ns host port argv0 args).events ∧
    REvent.close ∉
      (InspectRedis.main J connOk eD st ns host port argv0 args).events := by
  simp only [InspectRedis.main]
  split
  · exact ⟨by simp, by simp⟩
  · split
    · exact ⟨by simp, by simp⟩
    · exact ⟨by simp, by simp⟩

/-- Claim C10: a run whose namespace scan returns zero keys prints the banner,
the zero count and "No cached data found.", and nothing else: no sample keys,
no memory or cache statistics, and no single-key inspection even when a key
argument was supplied; the exit code is 0. -/
theorem C10_empty_scan (J : JsonCodec) (eD : String) (st : Store)
    (ns host port argv0 : String) (args : List String)
    (h : keysPattern st ns = []) :
    (InspectRedis.main J true eD st ns host port argv0 args).output =
      bannerLines host port ns ++ [foundLine ns 0, "", "No cached data found."] ∧
    (InspectRedis.main J true eD st ns host port argv0 args).exitCode = 0 := by
  constructor <;> simp [InspectRedis.main, h]

/-- Claim C10 witness: the theorem at a store with no `litellm:` keys and a
key argument supplied. -/
theorem C10_witness :
    (InspectRedis.main ⟨fun _ => none, fun _ => none⟩ true ""
      { data := [("other:x", RVal.str "v")], ttlOf := fun _ => -1,
        memUsage := fun _ => none, memInfo := ⟨0, 0, none⟩,
        statsInfo := ⟨0, 0, 0⟩ }
      "litellm" "h" "p" "prog" ["completion:a"]).output =
      bannerLines "h" "p" "litellm" ++
      [foundLine "litellm" 0, "", "No cached data found."] :=
  (C10_empty_scan ⟨fun _ => none, fun _ => none⟩ ""
    { data := [("other:x", RVal.str "v")], ttlOf := fun _ => -1,
      memUsage := fun _ => none, memInfo := ⟨0, 0, none⟩,
      statsInfo := ⟨0, 0, 0⟩ }
    "litellm" "h" "p" "prog" ["completion:a"] (by decide)).1

/-- Claim C4 witness: the amended theorem at the namespace `litellm` and a
key carrying the prefix. -/
theorem C4_witness :
    replaceFirst ("litellm" ++ ":" ++ "completion:x") ("litellm" ++ ":") "" =
      "completion:x" :=
  C4_amended "litellm" "completion:x"

/-- Claim C3 witness: the amended theorem at a concrete inspect-mode run. -/
theorem C3_witness :
    REvent.connect ∈
      (InspectRedis.main ⟨fun _ => none, fun _ => none⟩ true ""
        { data := [], ttlOf := fun _ => -1, memUsage := fun _ => none,
          memInfo := ⟨0, 0, none⟩, statsInfo := ⟨0, 0, 0⟩ }
        "litellm" "h" "p" "prog" ["x"]).events ∧
    REvent.close ∉
      (InspectRedis.main ⟨fun _ => none, fun _ => none⟩ true ""
        { data := [], ttlOf := fun _ => -1, memUsage := fun _ => none,
          memInfo := ⟨0, 0, none⟩, statsInfo := ⟨0, 0, 0⟩ }
        "litellm" "h" "p" "prog" ["x"]).events :=
  C3_amended ⟨fun _ => none, fun _ => none⟩ true ""
    { data := [], ttlOf := fun _ => -1, memUsage := fun _ => none,
      memInfo := ⟨0, 0, none⟩, statsInfo := ⟨0, 0, 0⟩ }
    "litellm" "h" "p" "prog" ["x"]
